import Mathlib

/-!
Verification of the MORSHDI image-generation app (`src/index.tsx`).

The file shallowly embeds the program's data model and operations:
the bounded local history store (`getHistory` / `addToHistory`), the
prompt composer inside `generate`, the error-classification logic of
the `catch` block, the control-disabling lifecycle, the submit-button
click handler, and the history "restore as current" action.

JavaScript string built-ins used by the source (`trim`, the global
hyphen-to-space `replace`, `includes`, `toLowerCase`, `split(sep)[0]`) are
embedded as executable functions over `List Char` so that every
definition evaluates in the kernel.
-/

/-- Embeds JS `String.prototype.trim`: strip leading and trailing
whitespace from both ends of the string. -/
def jsTrim (s : String) : String :=
  ⟨((s.data.dropWhile Char.isWhitespace).reverse.dropWhile Char.isWhitespace).reverse⟩

/-- Embeds the JS global-regex replace of src/index.tsx:227:
every hyphen in `cameraView` is replaced by a space. -/
def replaceHyphens (s : String) : String :=
  ⟨s.data.map (fun c => if c = '-' then ' ' else c)⟩

/-- Substring occurrence test over char lists, embedding JS
`String.prototype.includes(pat)`: `pat` occurs contiguously in `s`. -/
def containsSub (pat : List Char) : List Char → Bool
  | [] => pat.isEmpty
  | c :: rest => pat.isPrefixOf (c :: rest) || containsSub pat rest

/-- String-level wrapper: `strContains s pat` embeds JS `s.includes(pat)`. -/
def strContains (s pat : String) : Bool :=
  containsSub pat.data s.data

/-- Embeds JS `s.split(sep)[0]` for a non-empty separator `sep`:
the prefix of `s` strictly before the first occurrence of `sep`,
or all of `s` when `sep` never occurs. -/
def splitFirst (sep : List Char) : List Char → List Char
  | [] => []
  | c :: rest => if sep.isPrefixOf (c :: rest) then [] else c :: splitFirst sep rest

/-- src/index.tsx:11 — `const MAX_HISTORY_ITEMS = 30`. -/
def MAX_HISTORY_ITEMS : Nat := 30

/-- src/index.tsx:13-18 — one persisted record of a past generation. -/
structure HistoryItem where
  id : String
  prompt : String
  imageUrl : String
  timestamp : Nat
deriving Repr, DecidableEq

/-- src/index.tsx:300-309 — `addToHistory`, at the level of the stored
sequence: prepend (`unshift`) the new item, then truncate
(`slice(0, MAX_HISTORY_ITEMS)`) when the length exceeds the cap. -/
def addToHistory (item : HistoryItem) (history : List HistoryItem) : List HistoryItem :=
  let history := item :: history
  if history.length > MAX_HISTORY_ITEMS then history.take MAX_HISTORY_ITEMS else history

/-- A whole run of the store: perform the given appends (oldest
submitted first) starting from the empty history. -/
def appendAll (items : List HistoryItem) : List HistoryItem :=
  items.foldl (fun h it => addToHistory it h) []

/-- src/index.tsx:283-294 — `getHistory`, parameterised by the ambient
JSON parser (JS `JSON.parse`, external to this repository) and by the
blob stored under the history key (`none` for a `null` read).
JS falsiness of `''` is modelled: an empty blob also yields `[]`; a
parse failure is caught and yields `[]`. -/
def getHistory (parse : String → Except String (List HistoryItem))
    (stored : Option String) : List HistoryItem :=
  match stored with
  | none => []
  | some s =>
    if s = "" then []
    else
      match parse s with
      | .ok h => h
      | .error _ => []

/-- src/index.tsx:31 onward (spec §3) — the ephemeral generation
config captured from the mutable globals `prompt`, `negativePrompt`,
`aspectRatio`, `qualityPreset`, `cameraView` (src/index.tsx:104-109). -/
structure GenerationRequestConfig where
  prompt : String
  negativePrompt : String
  aspectRatio : String
  qualityPreset : String
  cameraView : String
deriving Repr, DecidableEq

/-- src/index.tsx:199-207 — the fixed common style keywords,
comma-joined exactly as the source's `join(', ')`. -/
def commonKeywords : String :=
  String.intercalate ", "
    ["photorealistic", "film still", "movie scene", "fit prompt",
     "no distortion", "no deformations", "no text overlays"]

/-- src/index.tsx:209-223 — the `switch (qualityPreset)` table; an
unrecognized preset leaves the keywords empty. -/
def qualityKeywords (qualityPreset : String) : String :=
  if qualityPreset = "sd" then
    "720p resolution, standard quality, sharp focus, basic detail"
  else if qualityPreset = "hd" then
    "1080p, Full HD resolution, high quality, high detail, realistic look"
  else if qualityPreset = "ultra" then
    "4K+, ultra realistic, shot on ARRI ALEXA LF, Anamorphic Lenses, High Contrast, Gritty Film Grain, Shallow Depth of Field, extreme atmospheric realism, deep blacks (Chiaroscuro)"
  else ""

/-- src/index.tsx:225-228 — the camera-view clause, empty for the
sentinel `"default"`. -/
def cameraViewClause (cameraView : String) : String :=
  if cameraView = "default" then ""
  else ", Shot from a " ++ replaceHyphens cameraView ++ " perspective"

/-- src/index.tsx:230-233 — assembly of `finalPrompt`:
`` `${prompt}${cameraViewPrompt}, ${qualityKeywords}, ${commonKeywords}` ``
plus the negative-prompt suffix when `negativePrompt.trim()` is truthy. -/
def composePrompt (cfg : GenerationRequestConfig) : String :=
  let finalPrompt :=
    cfg.prompt ++ cameraViewClause cfg.cameraView ++ ", "
      ++ qualityKeywords cfg.qualityPreset ++ ", " ++ commonKeywords
  if jsTrim cfg.negativePrompt ≠ "" then
    finalPrompt ++ ". Negative prompt: " ++ jsTrim cfg.negativePrompt
  else finalPrompt

/-- src/index.tsx:256-270 — classification of a caught error message:
the user-facing message together with the `shouldOpenDialog` flag.
The default is the raw message prefixed `"Error: "`; the
"Requested entity was not found." test runs first, then the
invalid-key / permission-denied tests. -/
def classifyError (errorMessage : String) : String × Bool :=
  if strContains errorMessage "Requested entity was not found." then
    ("Model not found. This can be caused by an invalid API key or permission issues. Please check your API key.",
     true)
  else if strContains errorMessage "API_KEY_INVALID"
      || strContains errorMessage "API key not valid"
      || containsSub "permission denied".data (errorMessage.data.map Char.toLower) then
    ("Your API key is invalid. Please add a valid API key.", true)
  else
    ("Error: " ++ errorMessage, false)

/-- src/index.tsx:248-276 — the observable outcome of the `catch`
block for a thrown message: the status message shown, and how many
times `openApiKeyDialog` is invoked (once iff `shouldOpenDialog`). -/
def handleGenerationError (errorMessage : String) : String × Nat :=
  ((classifyError errorMessage).1, if (classifyError errorMessage).2 then 1 else 0)

/-- src/index.tsx:175-182 — the six disabled flags set by
`setControlsDisabled`. -/
structure Controls where
  generateDisabled : Bool
  promptDisabled : Bool
  negativePromptDisabled : Bool
  aspectRatioDisabled : Bool
  qualityPresetDisabled : Bool
  cameraViewDisabled : Bool
deriving Repr, DecidableEq

/-- src/index.tsx:175-182 — `setControlsDisabled(disabled)` assigns
the flag to every one of the six controls. -/
def setControlsDisabled (disabled : Bool) (_c : Controls) : Controls :=
  ⟨disabled, disabled, disabled, disabled, disabled, disabled⟩

/-- The observable UI/store state driven by src/index.tsx:
control flags, status line, displayed image, download-button flag,
number of `openApiKeyDialog` invocations, number of external
`generateImages` calls issued, the persisted history, and the prompt
field / `prompt` global. -/
structure AppState where
  controls : Controls
  status : String
  displayedImage : Option String
  downloadDisabled : Bool
  dialogCalls : Nat
  apiCalls : Nat
  history : List HistoryItem
  promptField : String
  currentPrompt : String
deriving Repr, DecidableEq

/-- src/index.tsx:171-173 — `showStatusError` wraps the message in a
red span and writes it to the status element. -/
def errorSpan (message : String) : String :=
  "<span class=\"text-red-400\">" ++ message ++ "</span>"

/-- src/index.tsx:171-173 — state effect of `showStatusError`. -/
def showStatusError (message : String) (st : AppState) : AppState :=
  { st with status := errorSpan message }

/-- JS falsiness of `process.env.API_KEY` and of
`localStorage.getItem(...)`: absent (`null`/`undefined`) or the empty
string count as missing. -/
def isFalsyStr : Option String → Bool
  | none => true
  | some s => s = ""

/-- src/index.tsx:193-235 — the synchronous prefix of `generate` once
the API key is present, up to and including issuing the external call:
status text, hide the output image, disable download, disable all
controls, and invoke `generateImage` (counted in `apiCalls`). This is
the InFlight state of spec §4.4. -/
def generateStart (st : AppState) : AppState :=
  { st with
    status := "Generating image...",
    displayedImage := none,
    downloadDisabled := true,
    controls := setControlsDisabled true st.controls,
    apiCalls := st.apiCalls + 1 }

/-- src/index.tsx:235-279 — resolution of the awaited call and the
`catch`/`finally` of `generate`. `apiResult` is the outcome of
`await generateImage(...)`: `.ok bytes` when the external API returned
a first image with the given base64 bytes, `.error msg` when the await
threw with that message (transport error or the empty-result throw of
src/index.tsx:63-67). `newId` and `now` stand for
`self.crypto.randomUUID()` and `Date.now()`. The `finally` block
re-enables the controls on every path. -/
def generateFinish (cfg : GenerationRequestConfig) (apiResult : Except String String)
    (newId : String) (now : Nat) (st : AppState) : AppState :=
  let finalPrompt := composePrompt cfg
  let st3 :=
    match apiResult with
    | .ok bytes =>
      let imageUrl := "data:image/jpeg;base64," ++ bytes
      let stOk := { st with
        displayedImage := some imageUrl,
        status := "Image generated successfully.",
        downloadDisabled := false }
      { stOk with
        history := addToHistory ⟨newId, finalPrompt, imageUrl, now⟩ stOk.history }
    | .error em =>
      let classified := classifyError em
      let stErr := showStatusError classified.1 st
      if classified.2 then { stErr with dialogCalls := stErr.dialogCalls + 1 } else stErr
  { st3 with controls := setControlsDisabled false st3.controls }

/-- src/index.tsx:184-280 — `generate()`: missing/empty API key shows
an error and opens the key dialog without touching the controls;
otherwise the InFlight prefix runs, then the try/catch/finally. -/
def generate (cfg : GenerationRequestConfig) (apiKey : Option String)
    (apiResult : Except String String) (newId : String) (now : Nat)
    (st : AppState) : AppState :=
  if isFalsyStr apiKey then
    let st1 := showStatusError "API key is not configured. Please add your API key." st
    { st1 with dialogCalls := st1.dialogCalls + 1 }
  else
    generateFinish cfg apiResult newId now (generateStart st)

/-- src/index.tsx:132-138 — the generate-button click handler: an
empty trimmed prompt reports a validation error and returns without
calling `generate()`. -/
def generateButtonClick (cfg : GenerationRequestConfig) (apiKey : Option String)
    (apiResult : Except String String) (newId : String) (now : Nat)
    (st : AppState) : AppState :=
  if jsTrim cfg.prompt = "" then
    showStatusError "Please enter a prompt to generate an image." st
  else
    generate cfg apiKey apiResult newId now st

/-- A submit attempt through the intended UI: a disabled HTML button
dispatches no click event, so the handler of src/index.tsx:132 only
runs when `generateButton.disabled` is false. -/
def clickGenerateButton (cfg : GenerationRequestConfig) (apiKey : Option String)
    (apiResult : Except String String) (newId : String) (now : Nat)
    (st : AppState) : AppState :=
  if st.controls.generateDisabled then st
  else generateButtonClick cfg apiKey apiResult newId now st

/-- src/index.tsx:368 — `item.prompt.split(', photorealistic')[0]`. -/
def restorePrompt (storedPrompt : String) : String :=
  ⟨splitFirst ", photorealistic".data storedPrompt.data⟩

/-- src/index.tsx:363-373 — clicking a history item: show its image,
enable download, and restore `split(', photorealistic')[0]` of the
stored prompt into the prompt field and the `prompt` global. -/
def restoreClick (item : HistoryItem) (st : AppState) : AppState :=
  { st with
    displayedImage := some item.imageUrl,
    downloadDisabled := false,
    promptField := restorePrompt item.prompt,
    currentPrompt := restorePrompt item.prompt }

/-- The part of the composed prompt before the common style keywords:
user prompt, camera clause, and the quality-keyword block. -/
def composedBase (cfg : GenerationRequestConfig) : String :=
  cfg.prompt ++ cameraViewClause cfg.cameraView ++ ", " ++ qualityKeywords cfg.qualityPreset

/-- The negative-prompt suffix of the composed prompt: empty when the
trimmed negative prompt is empty (src/index.tsx:231-233). -/
def negSuffix (cfg : GenerationRequestConfig) : String :=
  if jsTrim cfg.negativePrompt ≠ "" then ". Negative prompt: " ++ jsTrim cfg.negativePrompt
  else ""

-- ## Helper lemmas

theorem strData_append (s t : String) : (s ++ t).data = s.data ++ t.data := by
  cases s; cases t; rfl

theorem strExt {s t : String} (h : s.data = t.data) : s = t := by
  cases s; cases t; exact congrArg String.mk h

theorem isPrefixOf_append_left (p l r : List Char) (h : p.isPrefixOf l = true) :
    p.isPrefixOf (l ++ r) = true := by
  induction p generalizing l with
  | nil => simp [List.isPrefixOf]
  | cons a as ih =>
    cases l with
    | nil => simp [List.isPrefixOf] at h
    | cons b bs =>
      simp only [List.cons_append, List.isPrefixOf, Bool.and_eq_true, beq_iff_eq] at h ⊢
      exact ⟨h.1, ih bs h.2⟩

theorem splitFirst_at_occ (sep s : List Char) (hne : sep ≠ [])
    (hp : sep.isPrefixOf s = true) : splitFirst sep s = [] := by
  cases s with
  | nil =>
    cases sep with
    | nil => exact absurd rfl hne
    | cons a as => simp [List.isPrefixOf] at hp
  | cons c rest => simp [splitFirst, hp]

theorem splitFirst_append_of_no_occ (sep t : List Char) :
    ∀ p : List Char, (∀ i, i < p.length → sep.isPrefixOf ((p ++ t).drop i) = false) →
    splitFirst sep (p ++ t) = p ++ splitFirst sep t := by
  intro p
  induction p with
  | nil => intro _; simp
  | cons c p' ih =>
    intro h
    have h0 : sep.isPrefixOf (c :: (p' ++ t)) = false := by simpa using h 0 (by simp)
    have hrest : splitFirst sep (p' ++ t) = p' ++ splitFirst sep t := by
      refine ih fun i hi => ?_
      simpa using h (i + 1) (by simpa using Nat.succ_lt_succ hi)
    simp [splitFirst, h0, hrest]

theorem addToHistory_eq_take (it : HistoryItem) (h : List HistoryItem)
    (_hle : h.length ≤ MAX_HISTORY_ITEMS) :
    addToHistory it h = (it :: h).take MAX_HISTORY_ITEMS := by
  unfold addToHistory
  by_cases hgt : (it :: h).length > MAX_HISTORY_ITEMS
  · simp [hgt]
  · rw [if_neg hgt]
    exact (List.take_of_length_le (Nat.le_of_not_lt hgt)).symm

theorem take_append_take (n : Nat) (a b : List HistoryItem) :
    (a ++ b.take n).take n = (a ++ b).take n := by
  rw [List.take_append_eq_append_take, List.take_append_eq_append_take, List.take_take]
  congr 1
  rw [Nat.min_eq_left (Nat.sub_le _ _)]

theorem foldl_addToHistory (items : List HistoryItem) :
    ∀ acc : List HistoryItem, acc.length ≤ MAX_HISTORY_ITEMS →
    items.foldl (fun h it => addToHistory it h) acc =
      (items.reverse ++ acc).take MAX_HISTORY_ITEMS := by
  induction items with
  | nil =>
    intro acc hacc
    simp [List.take_of_length_le hacc]
  | cons it rest ih =>
    intro acc hacc
    have hstep : addToHistory it acc = (it :: acc).take MAX_HISTORY_ITEMS :=
      addToHistory_eq_take it acc hacc
    calc (it :: rest).foldl (fun h it => addToHistory it h) acc
        = rest.foldl (fun h it => addToHistory it h) ((it :: acc).take MAX_HISTORY_ITEMS) := by
          simp [hstep]
      _ = (rest.reverse ++ (it :: acc).take MAX_HISTORY_ITEMS).take MAX_HISTORY_ITEMS := by
          exact ih _ (List.length_take_le _ _)
      _ = (rest.reverse ++ (it :: acc)).take MAX_HISTORY_ITEMS := take_append_take _ _ _
      _ = ((it :: rest).reverse ++ acc).take MAX_HISTORY_ITEMS := by
          simp [List.append_assoc]

theorem composePrompt_decomp (cfg : GenerationRequestConfig) :
    composePrompt cfg = composedBase cfg ++ (", " ++ commonKeywords ++ negSuffix cfg) := by
  by_cases h : jsTrim cfg.negativePrompt = "" <;>
    (apply strExt
     simp [composePrompt, composedBase, negSuffix, h, strData_append, List.append_assoc])

-- ## Claim theorems

/-- Concrete item used to instantiate the history theorems. -/
def mkItem (n : Nat) : HistoryItem :=
  ⟨toString n, "prompt", "url", n⟩

/-- Concrete config used to instantiate the composer theorems. -/
def cfg0 : GenerationRequestConfig :=
  ⟨"a cat", "", "16:9", "sd", "default"⟩

/-- Concrete initial UI state used to instantiate the lifecycle theorems. -/
def st0 : AppState :=
  ⟨⟨false, false, false, false, false, false⟩, "", none, true, 0, 0, [], "", ""⟩

/-- C1: starting from the empty history, N appends leave exactly
min(N, 30) stored items, ordered newest-first (the stored list is the
reversed insertion sequence truncated to 30); appending to a history
holding exactly 30 items keeps the new item at the head plus the first
29 old ones and drops only the oldest (tail) entry. -/
theorem history_bounded_newest_first (items h : List HistoryItem) (it : HistoryItem)
    (hcap : h.length = MAX_HISTORY_ITEMS) :
    (appendAll items).length = min items.length MAX_HISTORY_ITEMS ∧
    appendAll items = items.reverse.take MAX_HISTORY_ITEMS ∧
    addToHistory it h = it :: h.dropLast := by
  have hall : appendAll items = items.reverse.take MAX_HISTORY_ITEMS := by
    unfold appendAll
    rw [foldl_addToHistory items [] (by simp)]
    simp
  refine ⟨?_, hall, ?_⟩
  · rw [hall]
    simp [List.length_take, Nat.min_comm]
  · rw [addToHistory_eq_take it h (le_of_eq hcap),
      show MAX_HISTORY_ITEMS = 29 + 1 from rfl, List.take_succ_cons,
      List.dropLast_eq_take, hcap]
    rfl

/-- Witness for C1 at a concrete run of 31 appends and a concrete
history of exactly 30 items. -/
theorem history_bounded_newest_first_app :
    (appendAll ((List.range 31).map mkItem)).length =
      min ((List.range 31).map mkItem).length MAX_HISTORY_ITEMS ∧
    appendAll ((List.range 31).map mkItem) =
      ((List.range 31).map mkItem).reverse.take MAX_HISTORY_ITEMS ∧
    addToHistory (mkItem 99) ((List.range 30).map mkItem) =
      mkItem 99 :: ((List.range 30).map mkItem).dropLast :=
  history_bounded_newest_first ((List.range 31).map mkItem)
    ((List.range 30).map mkItem) (mkItem 99) (by simp [MAX_HISTORY_ITEMS])

/-- C2: when the blob stored under the history key fails to parse,
`getHistory` returns the empty list; the failure is caught and never
surfaces as an error (the function is total). -/
theorem corrupt_history_loads_empty (parse : String → Except String (List HistoryItem))
    (stored : Option String) (s e : String)
    (hs : stored = some s) (hp : parse s = .error e) :
    getHistory parse stored = [] := by
  subst hs
  by_cases h0 : s = "" <;> simp [getHistory, h0, hp]

/-- Witness for C2 at a concrete malformed blob and a parser that
rejects it. -/
theorem corrupt_history_loads_empty_app :
    getHistory (fun _ => .error "unexpected token") (some "not valid json") = [] :=
  corrupt_history_loads_empty (fun _ => .error "unexpected token")
    (some "not valid json") "not valid json" "unexpected token" rfl rfl

/-- C3: prompt composition is deterministic in the config, and the
config (prompt "a cat", camera "default", preset "sd", empty negative
prompt) composes, for any aspect ratio, to exactly the claimed string. -/
theorem compose_deterministic_and_sd_example :
    (∀ c1 c2 : GenerationRequestConfig, c1 = c2 → composePrompt c1 = composePrompt c2) ∧
    (∀ ar : String, composePrompt ⟨"a cat", "", ar, "sd", "default"⟩ =
      "a cat, 720p resolution, standard quality, sharp focus, basic detail, photorealistic, film still, movie scene, fit prompt, no distortion, no deformations, no text overlays") := by
  refine ⟨fun c1 c2 h => by rw [h], fun ar => rfl⟩

/-- Witness for C3 at the concrete config of the claim. -/
theorem compose_deterministic_and_sd_example_app :
    composePrompt cfg0 = composePrompt cfg0 ∧
    composePrompt cfg0 =
      "a cat, 720p resolution, standard quality, sharp focus, basic detail, photorealistic, film still, movie scene, fit prompt, no distortion, no deformations, no text overlays" :=
  ⟨compose_deterministic_and_sd_example.1 cfg0 cfg0 rfl,
   compose_deterministic_and_sd_example.2 "16:9"⟩

/-- C4 counterexample: a thrown message containing "API_KEY_INVALID"
but also "Requested entity was not found." is shown the model-not-found
message, not the invalid-key message, because the not-found test runs
first (src/index.tsx:257-269). -/
theorem api_key_invalid_precedence_cex :
    strContains "Requested entity was not found. API_KEY_INVALID" "API_KEY_INVALID" = true ∧
    (handleGenerationError "Requested entity was not found. API_KEY_INVALID").1 ≠
      "Your API key is invalid. Please add a valid API key." ∧
    handleGenerationError "Requested entity was not found. API_KEY_INVALID" =
      ("Model not found. This can be caused by an invalid API key or permission issues. Please check your API key.", 1) := by
  refine ⟨by decide, by decide, by decide⟩

/-- C4 (amended): a thrown message containing "API_KEY_INVALID" and
not containing "Requested entity was not found." yields the invalid-key
user message and exactly one key-dialog invocation; a message matching
none of the known signatures yields the raw message prefixed "Error: "
and no dialog invocation. -/
theorem error_classification_amended (em : String) :
    (strContains em "Requested entity was not found." = false →
     strContains em "API_KEY_INVALID" = true →
     handleGenerationError em = ("Your API key is invalid. Please add a valid API key.", 1)) ∧
    (strContains em "Requested entity was not found." = false →
     strContains em "API_KEY_INVALID" = false →
     strContains em "API key not valid" = false →
     containsSub "permission denied".data (em.data.map Char.toLower) = false →
     handleGenerationError em = ("Error: " ++ em, 0)) := by
  constructor
  · intro h1 h2
    simp [handleGenerationError, classifyError, h1, h2]
  · intro h1 h2 h3 h4
    simp [handleGenerationError, classifyError, h1, h2, h3, h4]

/-- Witness for C4 (amended) at a concrete invalid-key message and a
concrete unrelated message. -/
theorem error_classification_amended_app :
    handleGenerationError "foo API_KEY_INVALID bar" =
      ("Your API key is invalid. Please add a valid API key.", 1) ∧
    handleGenerationError "network timeout" = ("Error: " ++ "network timeout", 0) :=
  ⟨(error_classification_amended "foo API_KEY_INVALID bar").1 (by decide) (by decide),
   (error_classification_amended "network timeout").2
     (by decide) (by decide) (by decide) (by decide)⟩

/-- C5: once a generation flow enters InFlight (the API key is
present), every exit path — success, classified failure, or any other
thrown error — ends with all six interactive controls enabled, through
the `finally` block of src/index.tsx:277-279. -/
theorem controls_reenabled_on_exit (cfg : GenerationRequestConfig) (k : String)
    (apiResult : Except String String) (newId : String) (now : Nat) (st : AppState)
    (hk : k ≠ "") :
    (generate cfg (some k) apiResult newId now st).controls =
      ⟨false, false, false, false, false, false⟩ := by
  have hkey : isFalsyStr (some k) = false := by simpa [isFalsyStr] using hk
  cases apiResult with
  | ok bytes => simp [generate, hkey, generateFinish, setControlsDisabled]
  | error em =>
    by_cases hdlg : (classifyError em).2 <;>
      simp [generate, hkey, generateFinish, setControlsDisabled, hdlg, showStatusError]

/-- Witness for C5 at a concrete key, a concrete failing call, and the
concrete initial state. -/
theorem controls_reenabled_on_exit_app :
    (generate cfg0 (some "KEY") (.error "boom") "id" 0 st0).controls =
      ⟨false, false, false, false, false, false⟩ :=
  controls_reenabled_on_exit cfg0 "KEY" (.error "boom") "id" 0 st0 (by decide)

/-- C6: a submit whose trimmed prompt is empty only reports the inline
validation error: no external call is made, no history entry is
produced, and the controls are never disabled. -/
theorem empty_prompt_validation (cfg : GenerationRequestConfig) (apiKey : Option String)
    (apiResult : Except String String) (newId : String) (now : Nat) (st : AppState)
    (h : jsTrim cfg.prompt = "") :
    generateButtonClick cfg apiKey apiResult newId now st =
      showStatusError "Please enter a prompt to generate an image." st ∧
    (generateButtonClick cfg apiKey apiResult newId now st).apiCalls = st.apiCalls ∧
    (generateButtonClick cfg apiKey apiResult newId now st).history = st.history ∧
    (generateButtonClick cfg apiKey apiResult newId now st).controls = st.controls := by
  have e : generateButtonClick cfg apiKey apiResult newId now st =
      showStatusError "Please enter a prompt to generate an image." st := by
    simp [generateButtonClick, h]
  refine ⟨e, ?_, ?_, ?_⟩ <;> rw [e] <;> rfl


/-- Witness for C6 at a concrete whitespace-only prompt. -/
theorem empty_prompt_validation_app :
    generateButtonClick ⟨"   ", "", "16:9", "sd", "default"⟩ (some "KEY")
        (.ok "bytes") "id" 0 st0 =
      showStatusError "Please enter a prompt to generate an image." st0 ∧
    (generateButtonClick ⟨"   ", "", "16:9", "sd", "default"⟩ (some "KEY")
        (.ok "bytes") "id" 0 st0).apiCalls = st0.apiCalls ∧
    (generateButtonClick ⟨"   ", "", "16:9", "sd", "default"⟩ (some "KEY")
        (.ok "bytes") "id" 0 st0).history = st0.history ∧
    (generateButtonClick ⟨"   ", "", "16:9", "sd", "default"⟩ (some "KEY")
        (.ok "bytes") "id" 0 st0).controls = st0.controls :=
  empty_prompt_validation ⟨"   ", "", "16:9", "sd", "default"⟩ (some "KEY")
    (.ok "bytes") "id" 0 st0 (by decide)

/-- C7: with a camera view other than the sentinel "default", the
composed prompt carries the clause ", Shot from a `<view with hyphens
as spaces>` perspective" immediately after the base prompt and before
the quality keywords; with "default" no clause is inserted. -/
theorem camera_view_clause_placement (cfg : GenerationRequestConfig) :
    (cfg.cameraView ≠ "default" →
      composePrompt cfg =
        cfg.prompt ++ (", Shot from a " ++ replaceHyphens cfg.cameraView ++ " perspective")
          ++ (", " ++ qualityKeywords cfg.qualityPreset ++ ", " ++ commonKeywords)
          ++ negSuffix cfg) ∧
    (cfg.cameraView = "default" →
      composePrompt cfg =
        cfg.prompt ++ (", " ++ qualityKeywords cfg.qualityPreset ++ ", " ++ commonKeywords)
          ++ negSuffix cfg) := by
  constructor
  · intro h
    rw [composePrompt_decomp]
    apply strExt
    simp [composedBase, cameraViewClause, h, strData_append, List.append_assoc]
  · intro h
    rw [composePrompt_decomp]
    apply strExt
    simp [composedBase, cameraViewClause, h, strData_append, List.append_assoc]

/-- Witness for C7 at a concrete "low-angle" config and at the default
config. -/
theorem camera_view_clause_placement_app :
    composePrompt ⟨"a dog", "", "16:9", "sd", "low-angle"⟩ =
      "a dog" ++ (", Shot from a " ++ replaceHyphens "low-angle" ++ " perspective")
        ++ (", " ++ qualityKeywords "sd" ++ ", " ++ commonKeywords)
        ++ negSuffix ⟨"a dog", "", "16:9", "sd", "low-angle"⟩ ∧
    composePrompt cfg0 =
      "a cat" ++ (", " ++ qualityKeywords "sd" ++ ", " ++ commonKeywords) ++ negSuffix cfg0 :=
  ⟨(camera_view_clause_placement ⟨"a dog", "", "16:9", "sd", "low-angle"⟩).1 (by decide),
   (camera_view_clause_placement cfg0).2 rfl⟩

/-- C8: when the negative prompt trims to a non-empty string, the
composed prompt is the base composition followed by exactly
". Negative prompt: " and the trimmed string; when it trims to empty,
nothing is appended. -/
theorem negative_prompt_suffix (cfg : GenerationRequestConfig) :
    (jsTrim cfg.negativePrompt ≠ "" →
      composePrompt cfg =
        composedBase cfg ++ ", " ++ commonKeywords
          ++ ". Negative prompt: " ++ jsTrim cfg.negativePrompt) ∧
    (jsTrim cfg.negativePrompt = "" →
      composePrompt cfg = composedBase cfg ++ ", " ++ commonKeywords) := by
  constructor
  · intro h
    apply strExt
    simp [composePrompt, composedBase, h, strData_append, List.append_assoc]
  · intro h
    apply strExt
    simp [composePrompt, composedBase, h, strData_append, List.append_assoc]

/-- Witness for C8 at a concrete negative prompt "  blurry " and at an
empty one. -/
theorem negative_prompt_suffix_app :
    composePrompt ⟨"a cat", "  blurry ", "16:9", "sd", "default"⟩ =
      composedBase ⟨"a cat", "  blurry ", "16:9", "sd", "default"⟩ ++ ", " ++ commonKeywords
        ++ ". Negative prompt: " ++ jsTrim "  blurry " ∧
    composePrompt cfg0 = composedBase cfg0 ++ ", " ++ commonKeywords :=
  ⟨(negative_prompt_suffix ⟨"a cat", "  blurry ", "16:9", "sd", "default"⟩).1 (by decide),
   (negative_prompt_suffix cfg0).2 rfl⟩

/-- C9: in the InFlight state the generate button is disabled, so a
second submit attempt through the UI dispatches no click and leaves the
state untouched: the external call count stays at one and no duplicate
history entry appears while the first request is outstanding. -/
theorem single_flight_second_click_ignored (cfg2 : GenerationRequestConfig)
    (apiKey2 : Option String) (r2 : Except String String) (id2 : String) (t2 : Nat)
    (st : AppState) :
    (generateStart st).controls.generateDisabled = true ∧
    clickGenerateButton cfg2 apiKey2 r2 id2 t2 (generateStart st) = generateStart st ∧
    (clickGenerateButton cfg2 apiKey2 r2 id2 t2 (generateStart st)).apiCalls =
      st.apiCalls + 1 ∧
    (clickGenerateButton cfg2 apiKey2 r2 id2 t2 (generateStart st)).history = st.history := by
  have h1 : (generateStart st).controls.generateDisabled = true := rfl
  have h2 : clickGenerateButton cfg2 apiKey2 r2 id2 t2 (generateStart st) = generateStart st := by
    simp [clickGenerateButton, h1]
  refine ⟨h1, h2, ?_, ?_⟩ <;> rw [h2] <;> rfl

/-- C10 counterexample: for the stored prompt composed from the user
prompt "a cat, photorealistic dog" (camera "default", preset "sd"),
the restore action recovers only "a cat" — not the user prompt plus the
quality keywords as the claim states — because the user prompt itself
contains the separator ", photorealistic". -/
theorem restore_prompt_cex :
    restorePrompt (composePrompt ⟨"a cat, photorealistic dog", "", "16:9", "sd", "default"⟩) =
      "a cat" ∧
    restorePrompt (composePrompt ⟨"a cat, photorealistic dog", "", "16:9", "sd", "default"⟩) ≠
      "a cat, photorealistic dog" ++ cameraViewClause "default" ++ ", "
        ++ qualityKeywords "sd" := by
  refine ⟨rfl, by decide⟩

/-- C10 (amended): the restore action sets the current prompt (and the
prompt field) to the prefix of the stored prompt strictly before the
first occurrence of ", photorealistic"; for a prompt produced by this
composer in which that separator does not occur before the common
style-keyword block, the restored string is exactly the user prompt
plus the camera-view clause (if any) plus the quality-keyword block —
not the user prompt alone. -/
theorem restore_prompt_amended (cfg : GenerationRequestConfig) (item : HistoryItem)
    (st : AppState) (hitem : item.prompt = composePrompt cfg)
    (hfree : ∀ i, i < (composedBase cfg).data.length →
      (", photorealistic".data).isPrefixOf ((composePrompt cfg).data.drop i) = false) :
    (restoreClick item st).currentPrompt = composedBase cfg ∧
    (restoreClick item st).promptField = composedBase cfg := by
  have hd : (composePrompt cfg).data =
      (composedBase cfg).data ++ (", " ++ commonKeywords ++ negSuffix cfg).data := by
    rw [composePrompt_decomp cfg, strData_append]
  have hpre : (", photorealistic".data).isPrefixOf
      ((", " ++ commonKeywords ++ negSuffix cfg).data) = true := by
    have h1 : (", " ++ commonKeywords ++ negSuffix cfg).data =
        (", " ++ commonKeywords).data ++ (negSuffix cfg).data := by
      rw [strData_append]
    rw [h1]
    exact isPrefixOf_append_left _ _ _ (by decide)
  rw [hd] at hfree
  have hmain : restorePrompt (composePrompt cfg) = composedBase cfg := by
    apply strExt
    show splitFirst (", photorealistic".data) (composePrompt cfg).data = (composedBase cfg).data
    rw [hd, splitFirst_append_of_no_occ _ _ _ hfree,
      splitFirst_at_occ _ _ (by decide) hpre, List.append_nil]
  constructor
  · show restorePrompt item.prompt = composedBase cfg
    rw [hitem, hmain]
  · show restorePrompt item.prompt = composedBase cfg
    rw [hitem, hmain]

/-- Witness for C10 (amended) at a concrete low-angle config whose
user prompt avoids the separator. -/
theorem restore_prompt_amended_app :
    (restoreClick ⟨"id", composePrompt ⟨"a dog", "", "16:9", "sd", "low-angle"⟩, "url", 0⟩
        st0).currentPrompt = composedBase ⟨"a dog", "", "16:9", "sd", "low-angle"⟩ ∧
    (restoreClick ⟨"id", composePrompt ⟨"a dog", "", "16:9", "sd", "low-angle"⟩, "url", 0⟩
        st0).promptField = composedBase ⟨"a dog", "", "16:9", "sd", "low-angle"⟩ :=
  restore_prompt_amended ⟨"a dog", "", "16:9", "sd", "low-angle"⟩
    ⟨"id", composePrompt ⟨"a dog", "", "16:9", "sd", "low-angle"⟩, "url", 0⟩
    st0 rfl (by decide)
